import Mathlib

/-!
Shallow embedding of `REDSHIFT_AUDIT_ENABLED.py` (an AWS Config custom rule
that checks whether audit logging is enabled on Redshift clusters).

Python dictionaries holding evaluation records are modelled as a structure
with `Option` fields (`none` = key absent).  Machine effects (API calls,
`sleep`, `print`) are modelled by explicit data: the pages an external
paginated API would return are inputs, and the submission calls the handler
would issue are outputs.
-/

/-- `DEFAULT_RESOURCE_TYPE` from the source. -/
def DEFAULT_RESOURCE_TYPE : String := "AWS::Redshift::Cluster"

/-- Whether the character list `pat` is an initial segment of `s`. -/
def matchHere : List Char → List Char → Bool
  | [], _ => true
  | _ :: _, [] => false
  | p :: ps, c :: cs => p == c && matchHere ps cs

/-- Whether `pat` occurs inside `s`, checked at every start position. -/
def containsAux (pat : List Char) : List Char → Bool
  | [] => matchHere pat []
  | c :: cs => matchHere pat (c :: cs) || containsAux pat cs

/-- Python substring test `pat in s` for strings. -/
def strContains (s pat : String) : Bool := containsAux pat.toList s.toList

/-- Python `s.startswith(pre)` / Lean `String.startsWith`, on the
character lists. -/
def strStartsWith (s pre : String) : Bool := matchHere pre.toList s.toList

/-- `build_annotation` from the source: truncate to the first 244 characters
plus a marker when longer than 256 characters. -/
def build_annot (s : String) : String :=
  if s.length > 256 then s.take 244 ++ " [truncated]" else s

/-- An evaluation record, i.e. the Python dict built by `build_evaluation` /
`build_evaluation_from_config_item`.  `none` models an absent key. -/
structure Evaluation where
  annot : Option String
  complianceResourceType : Option String
  complianceResourceId : Option String
  complianceType : Option String
  orderingTimestamp : Option String
deriving DecidableEq, Repr

/-- `build_evaluation` from the source.  The event only contributes
`notificationCreationTime` (the ordering timestamp), passed as `ts`.
`if annotation:` in Python is false for `None` and for the empty string. -/
def build_evaluation (resource_id compliance_type ts resource_type : String)
    (a : Option String) : Evaluation :=
  { annot := match a with
      | some s => if s = "" then none else some (build_annot s)
      | none => none
    complianceResourceType := some resource_type
    complianceResourceId := some resource_id
    complianceType := some compliance_type
    orderingTimestamp := some ts }

/-- The fields of a `configurationItem` dict that
`build_evaluation_from_config_item` reads. -/
structure ConfigItem where
  resourceType : String
  resourceId : String
  configurationItemCaptureTime : String
deriving DecidableEq, Repr

/-- `build_evaluation_from_config_item` from the source. -/
def build_evaluation_from_config_item (ci : ConfigItem) (compliance_type : String)
    (a : Option String) : Evaluation :=
  { annot := match a with
      | some s => if s = "" then none else some (build_annot s)
      | none => none
    complianceResourceType := some ci.resourceType
    complianceResourceId := some ci.resourceId
    complianceType := some compliance_type
    orderingTimestamp := some ci.configurationItemCaptureTime }

/-- The tuple of field names checked before submission in `lambda_handler`. -/
def REQUIRED_FIELDS : List String :=
  ["ComplianceResourceType", "ComplianceResourceId", "ComplianceType",
   "OrderingTimestamp"]

/-- Dict key access `evaluation[field]` restricted to the four required keys. -/
def getField (e : Evaluation) (f : String) : Option String :=
  if f == "ComplianceResourceType" then e.complianceResourceType
  else if f == "ComplianceResourceId" then e.complianceResourceId
  else if f == "ComplianceType" then e.complianceType
  else if f == "OrderingTimestamp" then e.orderingTimestamp
  else none

/-- The required fields absent from a record (`field not in evaluation`). -/
def missing_fields_of (e : Evaluation) : List String :=
  REQUIRED_FIELDS.filter (fun f => (getField e f).isNone)

/-- `missing_fields == False` for a record: all four required keys present. -/
def hasAllFields (e : Evaluation) : Bool := (missing_fields_of e).isEmpty

/-- The warnings printed by the list branch of `lambda_handler`, one per
missing field of each record. -/
def list_branch_warnings (l : List Evaluation) : List String :=
  l.flatMap (fun e =>
    (missing_fields_of e).map (fun f => "Missing " ++ f ++ " from custom evaluation."))

/-! ## Attribute extraction (parameter groups) -/

/-- One entry of a parameter group's `ClusterParameterStatusList`. -/
structure ClusterParameterStatus where
  parameterName : String
  parameterApplyStatus : String
deriving DecidableEq, Repr

/-- One entry of a cluster's `ClusterParameterGroups` list. -/
structure ClusterParameterGroup where
  parameterGroupName : String
  clusterParameterStatusList : List ClusterParameterStatus
deriving DecidableEq, Repr

/-- One entry of the `Parameters` list returned by
`describe_cluster_parameters`. -/
structure ClusterParameter where
  parameterName : String
  parameterValue : String
deriving DecidableEq, Repr

/-- The outer guard of `get_non_synced_params_list` in the source is
`if ["ParameterApplyStatus"] != "in-sync":`, comparing the one-element
literal list against a string.  Values of different types are never equal
in Python, so this guard is always true. -/
def literal_list_guard : Bool := true

/-- `get_non_synced_params_list` from the source: over every parameter
group, collect the names of status entries whose apply status is not
`"in-sync"` (the outer guard is the always-true literal comparison). -/
def get_non_synced_params_list (groups : List ClusterParameterGroup) : List String :=
  groups.foldl (fun res_list parameter =>
    if literal_list_guard then
      res_list ++
        (parameter.clusterParameterStatusList.filter
          (fun status => status.parameterApplyStatus != "in-sync")).map
          (fun status => status.parameterName)
    else res_list) []

/-- `params_to_scan` from the source. -/
def params_to_scan : List String :=
  ["require_ssl", "use_fips_ssl", "enable_user_activity_logging"]

/-- Python dict assignment `d[k] = v`: replace the value when the key is
present, append the pair otherwise. -/
def dictInsert (d : List (String × Bool)) (k : String) (v : Bool) :
    List (String × Bool) :=
  if d.any (fun p => p.fst == k) then
    d.map (fun p => if p.fst == k then (k, v) else p)
  else d ++ [(k, v)]

/-- Python dict lookup `d[k]` as an `Option`. -/
def dictLookup (d : List (String × Bool)) (k : String) : Option Bool :=
  (d.find? (fun p => p.fst == k)).map (fun p => p.snd)

/-- `get_parameters_for_cluster_parameter_group` from the source, with the
`Parameters` list the external API would return passed in as data.  For
each scanned parameter the stored flag is `True` exactly when its value is
`"true"` and its name is not in the non-synced list. -/
def get_parameters_for_cluster_parameter_group
    (cluster_parameter_group : List ClusterParameterGroup)
    (parameters : List ClusterParameter) : List (String × Bool) :=
  let sync_list := get_non_synced_params_list cluster_parameter_group
  parameters.foldl (fun params_dict param =>
    if params_to_scan.contains param.parameterName then
      dictInsert params_dict param.parameterName
        (if param.parameterValue == "true" &&
            !(sync_list.contains param.parameterName) then true else false)
    else params_dict) []

/-! ## Compliance evaluation -/

/-- A discovered cluster as `get_cluster_list` records it: the cluster
identifier paired with the attributes `evaluate_compliance` reads.  The
claims concern clusters whose `log_enabled` attribute is boolean. -/
structure ClusterRecord where
  clusterIdentifier : String
  log_enabled : Bool
deriving DecidableEq, Repr

/-- The annotation attached to a NON_COMPLIANT cluster evaluation. -/
def NON_COMPLIANT_ANNOT : String :=
  "Audit logging is not enforced for the cluster. Make sure to enable audit logging for the cluster. "

/-- The loop body of `evaluate_compliance` for one cluster tuple:
NON_COMPLIANT when logging is off, COMPLIANT when on, and the
`raise ValueError` branch modelled as `Except.error`. -/
def evaluate_cluster (ts : String) (c : ClusterRecord) : Except String Evaluation :=
  if !c.log_enabled then
    Except.ok (build_evaluation c.clusterIdentifier "NON_COMPLIANT" ts
      DEFAULT_RESOURCE_TYPE (some NON_COMPLIANT_ANNOT))
  else if c.log_enabled then
    Except.ok (build_evaluation c.clusterIdentifier "COMPLIANT" ts
      DEFAULT_RESOURCE_TYPE none)
  else
    Except.error "No valid value processed."

/-- `evaluate_compliance` from the source, with the discovered cluster list
passed in as data: when the list is empty a single account-scoped
NOT_APPLICABLE evaluation, then one evaluation per cluster in order. -/
def evaluate_compliance (accountId ts : String)
    (cluster_list : List ClusterRecord) : Except String (List Evaluation) := do
  let init : List Evaluation :=
    if cluster_list.isEmpty then
      [build_evaluation accountId "NOT_APPLICABLE" ts "AWS::::Account"
        (some "No clusters found")]
    else []
  let per_cluster ← cluster_list.mapM (evaluate_cluster ts)
  pure (init ++ per_cluster)

/-! ## Stale-result reconciliation -/

/-- One prior evaluation result as returned by
`get_compliance_details_by_config_rule`: the claims only read the nested
`EvaluationResultIdentifier.EvaluationResultQualifier.ResourceId`. -/
structure OldEval where
  resourceId : String
deriving DecidableEq, Repr

/-- The `while True` pagination loop of `clean_up_old_evaluations`: append
every result of the current page, then follow `NextToken` until absent.
The pages the external API would return are passed in as data. -/
def collect_old_evals : List (List OldEval) → List OldEval
  | [] => []
  | page :: rest => page ++ collect_old_evals rest

/-- `clean_up_old_evaluations` from the source: for every collected prior
resource id with no newer evaluation carrying the same
`ComplianceResourceId`, synthesize a NOT_APPLICABLE evaluation; return the
synthesized list followed by the latest evaluations. -/
def clean_up_old_evaluations (old_pages : List (List OldEval))
    (latest_evaluations : List Evaluation) (ts : String) : List Evaluation :=
  let old_eval_list := collect_old_evals old_pages
  let cleaned_evaluations := old_eval_list.foldl (fun acc old =>
    let newer_founded := latest_evaluations.any
      (fun latest => latest.complianceResourceId == some old.resourceId)
    if !newer_founded then
      acc ++ [build_evaluation old.resourceId "NOT_APPLICABLE" ts
        DEFAULT_RESOURCE_TYPE none]
    else acc) []
  cleaned_evaluations ++ latest_evaluations

/-! ## Handler dispatch, batching and submission -/

/-- The dynamic type of `compliance_result` in `lambda_handler`
(`None`/`str`/`list`/`dict`), as a tagged union. -/
inductive ComplianceResult where
  | noneRes : ComplianceResult
  | strRes (s : String) : ComplianceResult
  | listRes (l : List Evaluation) : ComplianceResult
  | dictRes (e : Evaluation) : ComplianceResult
deriving DecidableEq, Repr

/-- A Python dict with no keys (falsy in a boolean context). -/
def Evaluation.isEmptyDict (e : Evaluation) : Bool :=
  e.annot.isNone && e.complianceResourceType.isNone &&
    e.complianceResourceId.isNone && e.complianceType.isNone &&
    e.orderingTimestamp.isNone

/-- Python truthiness of `compliance_result`: `None`, the empty string, the
empty list and the empty dict are falsy. -/
def is_falsy : ComplianceResult → Bool
  | ComplianceResult.noneRes => true
  | ComplianceResult.strRes s => s == ""
  | ComplianceResult.listRes l => l.isEmpty
  | ComplianceResult.dictRes e => e.isEmptyDict

/-- Whether the result is carried by the `isinstance(compliance_result, list)`
branch arm. -/
def ComplianceResult.isListRes : ComplianceResult → Bool
  | ComplianceResult.listRes _ => true
  | _ => false

/-- The `if not compliance_result / elif isinstance(...)` dispatch of
`lambda_handler` after `evaluate_compliance` returned: yields whether
`clean_up_old_evaluations` is invoked, and the final `evaluations` list.
In the list branch, records missing a required field are dropped; the
kept records are passed to `clean_up_old_evaluations`.  The final `else`
arm of the source (a truthy value of any other type) is unreachable for
this union because `noneRes` is falsy; its arm mirrors the source when a
configuration item is at hand and yields no evaluation otherwise. -/
def handler_dispatch (cr : ComplianceResult) (ci : Option ConfigItem)
    (accountId ts : String) (old_pages : List (List OldEval)) :
    Bool × List Evaluation :=
  if is_falsy cr then
    let latest := [build_evaluation accountId "NOT_APPLICABLE" ts
      "AWS::::Account" none]
    (true, clean_up_old_evaluations old_pages latest ts)
  else
    match cr with
    | ComplianceResult.noneRes =>
        (false, match ci with
          | some c => [build_evaluation_from_config_item c "NOT_APPLICABLE" none]
          | none => [])
    | ComplianceResult.strRes s =>
        (false, match ci with
          | some c => [build_evaluation_from_config_item c s none]
          | none => [build_evaluation accountId s ts DEFAULT_RESOURCE_TYPE none])
    | ComplianceResult.listRes l =>
        (true, clean_up_old_evaluations old_pages (l.filter hasAllFields) ts)
    | ComplianceResult.dictRes d =>
        (false, if hasAllFields d then [d] else [])

/-- The `while evaluation_copy:` loop of `lambda_handler`: successive
slices `evaluation_copy[:100]`. -/
def batch_evaluations (l : List Evaluation) : List (List Evaluation) :=
  if l.isEmpty then [] else l.take 100 :: batch_evaluations (l.drop 100)
termination_by l.length
decreasing_by
  simp only [List.length_drop]
  cases l with
  | nil => simp_all
  | cons a t => simp only [List.length_cons]; omega

/-- One `put_evaluations` API call as the handler issues it. -/
structure PutEvaluationsCall where
  evals : List Evaluation
  resultToken : String
  testMode : Bool
deriving DecidableEq, Repr

/-- The submission tail of `lambda_handler`: `test_mode` is set exactly
when the result token is the sentinel `"TESTMODE"`, and one
`put_evaluations` call is issued per 100-record slice, each carrying the
token and the flag. -/
def submit_evaluations (evaluations : List Evaluation) (result_token : String) :
    List PutEvaluationsCall :=
  let test_mode := result_token == "TESTMODE"
  (batch_evaluations evaluations).map
    (fun b => { evals := b, resultToken := result_token, testMode := test_mode })

/-- The evaluation records of all issued submission calls, in order. -/
def submittedRecords (calls : List PutEvaluationsCall) : List Evaluation :=
  (calls.map PutEvaluationsCall.evals).flatten

/-- The tail of `lambda_handler` after the try/except: dispatch on the
compliance result, issue the submission calls, and return the
`evaluations` list. -/
def lambda_handler_model (cr : ComplianceResult) (ci : Option ConfigItem)
    (accountId ts : String) (old_pages : List (List OldEval))
    (result_token : String) : List PutEvaluationsCall × List Evaluation :=
  let evaluations := (handler_dispatch cr ci accountId ts old_pages).snd
  (submit_evaluations evaluations result_token, evaluations)

/-! ## Error classification and responses -/

/-- The `Error` block of a `botocore` client error response:
`ex.response["Error"]["Code"]` and `...["Message"]`. -/
structure AwsError where
  code : String
  message : String
deriving DecidableEq, Repr

/-- An abstraction of Python's `str(ex)` for a client error, used only as
opaque diagnostic text in `internalErrorDetails`. -/
def exn_str (e : AwsError) : String := "(" ++ e.code ++ ") " ++ e.message

/-- The `except botocore.exceptions.ClientError` block of
`get_assume_role_credentials`: when the code contains `"AccessDenied"`,
the message is replaced by a fixed non-leaking string; otherwise code and
message both become `"InternalError"`.  The scrubbed error is re-raised. -/
def scrub_assume_role_error (e : AwsError) : AwsError :=
  if strContains e.code "AccessDenied" then
    { code := e.code,
      message := "AWS Config does not have permission to assume the IAM role." }
  else { code := "InternalError", message := "InternalError" }

/-- `is_internal_error` from the source, restricted to client errors (the
`not isinstance(..., ClientError)` disjunct is false for them): code
starting with `"5"`, or containing `"InternalError"` or `"ServiceError"`. -/
def is_internal_error (e : AwsError) : Bool :=
  strStartsWith e.code "5" || strContains e.code "InternalError" ||
    strContains e.code "ServiceError"

/-- The error-response dict of `build_error_response`. -/
structure ErrorResponse where
  internalErrorMessage : String
  internalErrorDetails : Option String
  customerErrorMessage : Option String
  customerErrorCode : Option String
deriving DecidableEq, Repr

/-- `build_error_response` from the source (argument order as in the
source: message, details, code, customer message). -/
def build_error_response (internal_error_message : String)
    (internal_error_details : Option String)
    (customer_error_code : Option String)
    (customer_error_message : Option String) : ErrorResponse :=
  { internalErrorMessage := internal_error_message
    internalErrorDetails := internal_error_details
    customerErrorMessage := customer_error_message
    customerErrorCode := customer_error_code }

/-- `build_internal_error_response` from the source. -/
def build_internal_error_response (internal_error_message : String)
    (internal_error_details : Option String) : ErrorResponse :=
  build_error_response internal_error_message internal_error_details
    (some "InternalError") (some "InternalError")

/-- The `except botocore.exceptions.ClientError` handler of
`lambda_handler`: internal errors get the generic internal response,
customer errors echo the (possibly scrubbed) code and message. -/
def handle_client_error (ex : AwsError) : ErrorResponse :=
  if is_internal_error ex then
    build_internal_error_response "Unexpected error while completing API request"
      (some (exn_str ex))
  else
    build_error_response "Customer error while making API request"
      (some (exn_str ex)) (some ex.code) (some ex.message)

/-- The path a role-assumption failure takes: the raw provider error is
scrubbed and re-raised by `get_assume_role_credentials`, then caught and
classified by `lambda_handler`. -/
def assume_role_failure_response (raw : AwsError) : ErrorResponse :=
  handle_client_error (scrub_assume_role_error raw)

/-! ## Specification-side definitions and sample fixtures -/

/-- The per-cluster evaluation the specification's words predict: a
COMPLIANT record with no annotation when logging is enabled, a
NON_COMPLIANT record with the explanatory annotation when it is not.
Used only to compare `evaluate_compliance` against the spec. -/
def spec_cluster_eval (ts : String) (c : ClusterRecord) : Evaluation :=
  if c.log_enabled then
    { annot := none
      complianceResourceType := some DEFAULT_RESOURCE_TYPE
      complianceResourceId := some c.clusterIdentifier
      complianceType := some "COMPLIANT"
      orderingTimestamp := some ts }
  else
    { annot := some NON_COMPLIANT_ANNOT
      complianceResourceType := some DEFAULT_RESOURCE_TYPE
      complianceResourceId := some c.clusterIdentifier
      complianceType := some "NON_COMPLIANT"
      orderingTimestamp := some ts }

/-- A sample well-formed evaluation record, used to instantiate theorems at
concrete inputs. -/
def sampleEval : Evaluation :=
  { annot := none
    complianceResourceType := some DEFAULT_RESOURCE_TYPE
    complianceResourceId := some "cluster-a"
    complianceType := some "COMPLIANT"
    orderingTimestamp := some "2024-01-01T00:00:00Z" }

/-- A sample evaluation record missing its `ComplianceType` key, used to
instantiate theorems at concrete inputs. -/
def sampleBadEval : Evaluation :=
  { annot := none
    complianceResourceType := some DEFAULT_RESOURCE_TYPE
    complianceResourceId := some "cluster-b"
    complianceType := none
    orderingTimestamp := some "2024-01-01T00:00:00Z" }

/-- Sample parameter group whose scanned parameter is not in sync, used to
instantiate theorems at concrete inputs. -/
def sampleGroups : List ClusterParameterGroup :=
  [{ parameterGroupName := "group-a",
     clusterParameterStatusList :=
       [{ parameterName := "require_ssl",
          parameterApplyStatus := "pending-reboot" }] }]

/-- Sample scanned parameter list with the enabled sentinel value, used to
instantiate theorems at concrete inputs. -/
def sampleParams : List ClusterParameter :=
  [{ parameterName := "require_ssl", parameterValue := "true" }]

/-! ## Helper lemmas -/

theorem build_annot_non_compliant :
    build_annot NON_COMPLIANT_ANNOT = NON_COMPLIANT_ANNOT := by decide

theorem non_compliant_annot_ne_empty : NON_COMPLIANT_ANNOT ≠ "" := by decide

theorem evaluate_cluster_ok (ts : String) (c : ClusterRecord) :
    evaluate_cluster ts c = Except.ok (spec_cluster_eval ts c) := by
  cases hc : c.log_enabled <;>
    simp [evaluate_cluster, spec_cluster_eval, hc, build_evaluation,
      build_annot_non_compliant, non_compliant_annot_ne_empty]

theorem mapM_loop_evaluate (ts : String) (cs : List ClusterRecord)
    (acc : List Evaluation) :
    List.mapM.loop (evaluate_cluster ts) cs acc =
      Except.ok (acc.reverse ++ cs.map (spec_cluster_eval ts)) := by
  induction cs generalizing acc with
  | nil =>
      simp only [List.mapM.loop, List.map_nil, List.append_nil]
      rfl
  | cons c t ih =>
      simp only [List.mapM.loop, evaluate_cluster_ok, ih, List.map_cons,
        List.reverse_cons, List.append_assoc, List.singleton_append]
      rfl

theorem mapM_evaluate_cluster_ok (ts : String) (cs : List ClusterRecord) :
    cs.mapM (evaluate_cluster ts) = Except.ok (cs.map (spec_cluster_eval ts)) := by
  show List.mapM.loop (evaluate_cluster ts) cs [] = _
  rw [mapM_loop_evaluate]
  rfl

theorem evaluate_compliance_ok_form (accountId ts : String)
    (cs : List ClusterRecord) :
    evaluate_compliance accountId ts cs =
      Except.ok ((if cs.isEmpty then
          [build_evaluation accountId "NOT_APPLICABLE" ts "AWS::::Account"
            (some "No clusters found")]
        else []) ++ cs.map (spec_cluster_eval ts)) := by
  unfold evaluate_compliance
  rw [mapM_evaluate_cluster_ok]
  rfl

theorem batch_evaluations_props (l : List Evaluation) :
    (batch_evaluations l).flatten = l ∧
    (∀ b ∈ batch_evaluations l, b.length ≤ 100) ∧
    (batch_evaluations l).length = (l.length + 99) / 100 := by
  rw [batch_evaluations]
  split
  next h =>
    have hl : l = [] := List.isEmpty_iff.mp h
    subst hl; simp
  next h =>
    have hne : l ≠ [] := by intro hl; subst hl; simp at h
    obtain ⟨ih1, ih2, ih3⟩ := batch_evaluations_props (l.drop 100)
    refine ⟨?_, ?_, ?_⟩
    · rw [List.flatten_cons, ih1, List.take_append_drop]
    · intro b hb
      rcases List.mem_cons.mp hb with rfl | hb
      · simp
      · exact ih2 b hb
    · rw [List.length_cons, ih3, List.length_drop]
      have h1 : 1 ≤ l.length := List.length_pos.mpr hne
      omega
termination_by l.length
decreasing_by
  simp only [List.length_drop]
  cases l with
  | nil => simp_all
  | cons a t => simp only [List.length_cons]; omega

theorem submittedRecords_submit (l : List Evaluation) (tok : String) :
    submittedRecords (submit_evaluations l tok) = l := by
  obtain ⟨h1, -, -⟩ := batch_evaluations_props l
  simpa [submittedRecords, submit_evaluations, List.map_map, Function.comp_def]
    using h1

theorem foldl_append_filter_map {α β : Type} (p : α → Bool) (g : α → β) :
    ∀ (l : List α) (acc : List β),
      l.foldl (fun a x => if p x then a ++ [g x] else a) acc =
        acc ++ (l.filter p).map g := by
  intro l
  induction l with
  | nil => intro acc; simp
  | cons x t ih =>
      intro acc
      rw [List.foldl_cons, List.filter_cons, ih]
      cases hp : p x with
      | true => simp [hp]
      | false => simp [hp]

theorem clean_up_old_evaluations_eq (old_pages : List (List OldEval))
    (latest : List Evaluation) (ts : String) :
    clean_up_old_evaluations old_pages latest ts =
      ((collect_old_evals old_pages).filter (fun old =>
          !(latest.any (fun le => le.complianceResourceId == some old.resourceId)))).map
        (fun old => build_evaluation old.resourceId "NOT_APPLICABLE" ts
          DEFAULT_RESOURCE_TYPE none) ++ latest := by
  simp only [clean_up_old_evaluations]
  have h := foldl_append_filter_map
    (fun old => !(latest.any (fun le => le.complianceResourceId == some old.resourceId)))
    (fun old => build_evaluation old.resourceId "NOT_APPLICABLE" ts
      DEFAULT_RESOURCE_TYPE none)
    (collect_old_evals old_pages) []
  simp only [List.nil_append] at h
  congr 1

theorem hasAllFields_build_evaluation (rid ct ts rt : String) (a : Option String) :
    hasAllFields (build_evaluation rid ct ts rt a) = true := by
  simp [hasAllFields, missing_fields_of, REQUIRED_FIELDS, getField, build_evaluation]

theorem hasAllFields_build_from_ci (ci : ConfigItem) (ct : String)
    (a : Option String) :
    hasAllFields (build_evaluation_from_config_item ci ct a) = true := by
  simp [hasAllFields, missing_fields_of, REQUIRED_FIELDS, getField,
    build_evaluation_from_config_item]

theorem hasAllFields_spec_cluster_eval (ts : String) (c : ClusterRecord) :
    hasAllFields (spec_cluster_eval ts c) = true := by
  cases hc : c.log_enabled <;>
    simp [spec_cluster_eval, hc, hasAllFields, missing_fields_of, REQUIRED_FIELDS,
      getField]

theorem mem_clean_up_hasAllFields (old_pages : List (List OldEval))
    (latest : List Evaluation) (ts : String) (e : Evaluation)
    (hl : ∀ x ∈ latest, hasAllFields x = true)
    (he : e ∈ clean_up_old_evaluations old_pages latest ts) :
    hasAllFields e = true := by
  rw [clean_up_old_evaluations_eq] at he
  rcases List.mem_append.mp he with h | h
  · obtain ⟨o, -, rfl⟩ := List.mem_map.mp h
    exact hasAllFields_build_evaluation _ _ _ _ _
  · exact hl e h

theorem mem_dictInsert (d : List (String × Bool)) (k : String) (v : Bool)
    (kv : String × Bool) (h : kv ∈ dictInsert d k v) : kv ∈ d ∨ kv = (k, v) := by
  unfold dictInsert at h
  split at h
  · obtain ⟨p, hp, hpe⟩ := List.mem_map.mp h
    by_cases hk : (p.fst == k) = true
    · right; rw [if_pos hk] at hpe; exact hpe.symm
    · left; rw [if_neg hk] at hpe; exact hpe ▸ hp
  · rcases List.mem_append.mp h with h1 | h1
    · exact Or.inl h1
    · right; simpa using h1

theorem mem_params_foldl (sl : List String) (l : List ClusterParameter)
    (acc : List (String × Bool)) (kv : String × Bool)
    (h : kv ∈ l.foldl (fun params_dict param =>
        if params_to_scan.contains param.parameterName then
          dictInsert params_dict param.parameterName
            (if param.parameterValue == "true" && !(sl.contains param.parameterName)
              then true else false)
        else params_dict) acc) :
    kv ∈ acc ∨ ∃ p ∈ l, params_to_scan.contains p.parameterName = true ∧
      kv = (p.parameterName,
        if p.parameterValue == "true" && !(sl.contains p.parameterName) then true
        else false) := by
  induction l generalizing acc with
  | nil => exact Or.inl h
  | cons q t ih =>
      rw [List.foldl_cons] at h
      rcases ih _ h with hacc | ⟨p, hp, hsc, hkv⟩
      · by_cases hq : (params_to_scan.contains q.parameterName) = true
        · rw [if_pos hq] at hacc
          rcases mem_dictInsert _ _ _ _ hacc with h1 | h1
          · exact Or.inl h1
          · exact Or.inr ⟨q, List.mem_cons_self q t, hq, h1⟩
        · rw [if_neg hq] at hacc; exact Or.inl hacc
      · exact Or.inr ⟨p, List.mem_cons_of_mem q hp, hsc, hkv⟩

theorem dictLookup_some_mem (d : List (String × Bool)) (k : String) (b : Bool)
    (h : dictLookup d k = some b) : (k, b) ∈ d := by
  unfold dictLookup at h
  cases hf : d.find? (fun p => p.fst == k) with
  | none => rw [hf] at h; simp at h
  | some p =>
      rw [hf] at h
      have hb : p.snd = b := by simpa using h
      have hmem := List.mem_of_find?_eq_some hf
      have hpred := List.find?_some hf
      have hfst : p.fst = k := by simpa using hpred
      have hkb : (k, b) = p := by rw [← hfst, ← hb]
      exact hkb ▸ hmem

/-! ## Claim theorems -/

/-- C1: For every non-empty list of discovered cluster records,
`evaluate_compliance` succeeds and produces exactly one evaluation per
cluster, in order: for a cluster with `log_enabled = false` a NON_COMPLIANT
evaluation carrying the (non-empty) explanatory annotation, and for
`log_enabled = true` a COMPLIANT evaluation with no annotation.  No other
verdict (and no `ValueError`) is produced for a cluster with a boolean
`log_enabled` attribute. -/
theorem evaluate_compliance_one_eval_per_cluster (accountId ts : String)
    (cs : List ClusterRecord) (h : cs ≠ []) :
    evaluate_compliance accountId ts cs =
      Except.ok (cs.map (spec_cluster_eval ts)) ∧
    (∀ c : ClusterRecord, c.log_enabled = false →
      (spec_cluster_eval ts c).complianceType = some "NON_COMPLIANT" ∧
      (spec_cluster_eval ts c).annot = some NON_COMPLIANT_ANNOT ∧
      NON_COMPLIANT_ANNOT ≠ "") ∧
    (∀ c : ClusterRecord, c.log_enabled = true →
      (spec_cluster_eval ts c).complianceType = some "COMPLIANT" ∧
      (spec_cluster_eval ts c).annot = none) := by
  refine ⟨?_, ?_, ?_⟩
  · rw [evaluate_compliance_ok_form]
    have hie : cs.isEmpty = false := by
      cases cs with
      | nil => exact absurd rfl h
      | cons a t => rfl
    rw [hie]
    simp
  · intro c hc
    simp [spec_cluster_eval, hc, non_compliant_annot_ne_empty]
  · intro c hc
    simp [spec_cluster_eval, hc]

/-- Witness for C1 at a concrete two-cluster input. -/
theorem evaluate_compliance_one_eval_per_cluster_witness :
    ([{ clusterIdentifier := "cluster-a", log_enabled := true },
      { clusterIdentifier := "cluster-b", log_enabled := false }] :
        List ClusterRecord) ≠ [] ∧
    evaluate_compliance "111122223333" "2024-01-01T00:00:00Z"
        [{ clusterIdentifier := "cluster-a", log_enabled := true },
         { clusterIdentifier := "cluster-b", log_enabled := false }] =
      Except.ok ([{ clusterIdentifier := "cluster-a", log_enabled := true },
         { clusterIdentifier := "cluster-b", log_enabled := false }].map
        (spec_cluster_eval "2024-01-01T00:00:00Z")) :=
  ⟨by decide,
    (evaluate_compliance_one_eval_per_cluster "111122223333" "2024-01-01T00:00:00Z"
      _ (by decide)).1⟩

/-- C2: On an empty cluster list, `evaluate_compliance` emits exactly one
evaluation: NOT_APPLICABLE, resource type `AWS::::Account`, resource id the
invocation's account id, annotation `"No clusters found"`. -/
theorem evaluate_compliance_empty_not_applicable (accountId ts : String) :
    evaluate_compliance accountId ts [] =
      Except.ok [{ annot := some "No clusters found",
                   complianceResourceType := some "AWS::::Account",
                   complianceResourceId := some accountId,
                   complianceType := some "NOT_APPLICABLE",
                   orderingTimestamp := some ts }] := by
  rw [evaluate_compliance_ok_form]
  have hba : build_annot "No clusters found" = "No clusters found" := by decide
  simp [build_evaluation, hba]

/-- C3: The submission tail issues calls whose batches hold at most 100
records each, exactly ceil(N/100) = (N+99)/100 calls for N records, and
the batches concatenate back to the whole evaluation list. -/
theorem submit_evaluations_batching (l : List Evaluation) (result_token : String) :
    (∀ c ∈ submit_evaluations l result_token, c.evals.length ≤ 100) ∧
    (submit_evaluations l result_token).length = (l.length + 99) / 100 ∧
    submittedRecords (submit_evaluations l result_token) = l := by
  obtain ⟨h1, h2, h3⟩ := batch_evaluations_props l
  refine ⟨?_, ?_, submittedRecords_submit l result_token⟩
  · intro c hc
    simp only [submit_evaluations, List.mem_map] at hc
    obtain ⟨b, hb, rfl⟩ := hc
    exact h2 b hb
  · simp [submit_evaluations, h3]

/-- Witness for C3 at a concrete one-record input. -/
theorem submit_evaluations_batching_witness :
    (∀ c ∈ submit_evaluations [sampleEval] "token-1", c.evals.length ≤ 100) ∧
    (submit_evaluations [sampleEval] "token-1").length = (1 + 99) / 100 ∧
    submittedRecords (submit_evaluations [sampleEval] "token-1") = [sampleEval] :=
  submit_evaluations_batching [sampleEval] "token-1"

/-- C4: `clean_up_old_evaluations` returns exactly one synthesized
NOT_APPLICABLE evaluation for each collected prior resource id that does
not appear as a `ComplianceResourceId` of a new evaluation, followed by
the new evaluations unchanged; prior ids that do appear get nothing. -/
theorem clean_up_old_evaluations_reconciles (old_pages : List (List OldEval))
    (latest : List Evaluation) (ts : String) :
    clean_up_old_evaluations old_pages latest ts =
      ((collect_old_evals old_pages).filter (fun old =>
          !(latest.any (fun le => le.complianceResourceId == some old.resourceId)))).map
        (fun old => build_evaluation old.resourceId "NOT_APPLICABLE" ts
          DEFAULT_RESOURCE_TYPE none) ++ latest :=
  clean_up_old_evaluations_eq old_pages latest ts

/-- C5 counterexample: with one cluster whose logging is enabled,
`evaluate_compliance` reports a per-resource evaluation list, and the
handler dispatch on that list does invoke the stale-result reconciler —
contradicting the claim that the reconciler never runs for per-resource
results. -/
theorem reconciler_runs_on_per_resource_results :
    evaluate_compliance "111122223333" "2024-01-01T00:00:00Z"
        [{ clusterIdentifier := "cluster-a", log_enabled := true }] =
      Except.ok [sampleEval] ∧
    (handler_dispatch (ComplianceResult.listRes [sampleEval]) none
        "111122223333" "2024-01-01T00:00:00Z" []).fst = true := by
  constructor
  · rfl
  · rfl

/-- C5 amended: the stale-result reconciler is invoked exactly when the
compliance result is falsy (None, empty string, empty list, empty dict)
or is a list of evaluations — which includes every per-resource result;
it is not invoked for truthy string or dict results. -/
theorem reconciler_invocation_condition (cr : ComplianceResult)
    (ci : Option ConfigItem) (accountId ts : String)
    (old_pages : List (List OldEval)) :
    (handler_dispatch cr ci accountId ts old_pages).fst =
      (is_falsy cr || cr.isListRes) := by
  cases cr with
  | noneRes => rfl
  | strRes s =>
      by_cases hs : (s == "") = true
      · simp [handler_dispatch, is_falsy, ComplianceResult.isListRes, hs]
      · simp [handler_dispatch, is_falsy, ComplianceResult.isListRes, hs]
  | listRes l =>
      by_cases hl : l.isEmpty = true
      · simp [handler_dispatch, is_falsy, ComplianceResult.isListRes, hl]
      · simp [handler_dispatch, is_falsy, ComplianceResult.isListRes, hl]
  | dictRes d =>
      by_cases hd : d.isEmptyDict = true
      · simp [handler_dispatch, is_falsy, ComplianceResult.isListRes, hd]
      · simp [handler_dispatch, is_falsy, ComplianceResult.isListRes, hd]

/-- C6 counterexample: with result token "TESTMODE" the handler still
issues a `put_evaluations` submission call (carrying `TestMode = true`):
the list of issued calls is not empty. -/
theorem testmode_still_issues_submission_call :
    (lambda_handler_model (ComplianceResult.listRes [sampleEval]) none
        "111122223333" "2024-01-01T00:00:00Z" [] "TESTMODE").fst =
      [{ evals := [sampleEval], resultToken := "TESTMODE", testMode := true }] ∧
    ([{ evals := [sampleEval], resultToken := "TESTMODE", testMode := true }] :
        List PutEvaluationsCall) ≠ [] := by
  refine ⟨?_, by decide⟩
  have he : (handler_dispatch (ComplianceResult.listRes [sampleEval]) none
      "111122223333" "2024-01-01T00:00:00Z" []).snd = [sampleEval] := by decide
  show submit_evaluations _ "TESTMODE" = _
  rw [he]
  show List.map _ (batch_evaluations [sampleEval]) = _
  rw [batch_evaluations, batch_evaluations]
  rfl

/-- C6 amended: with result token "TESTMODE", the handler still issues one
submission call per 100-record batch, but every issued call carries
`TestMode = true`; the handler still returns the computed evaluation list,
and the issued batches cover exactly that list. -/
theorem testmode_flag_and_return (cr : ComplianceResult) (ci : Option ConfigItem)
    (accountId ts : String) (old_pages : List (List OldEval)) :
    (∀ c ∈ (lambda_handler_model cr ci accountId ts old_pages "TESTMODE").fst,
      c.testMode = true) ∧
    (lambda_handler_model cr ci accountId ts old_pages "TESTMODE").snd =
      (handler_dispatch cr ci accountId ts old_pages).snd ∧
    submittedRecords
        (lambda_handler_model cr ci accountId ts old_pages "TESTMODE").fst =
      (handler_dispatch cr ci accountId ts old_pages).snd := by
  refine ⟨?_, rfl, submittedRecords_submit _ "TESTMODE"⟩
  intro c hc
  simp only [lambda_handler_model, submit_evaluations, List.mem_map] at hc
  obtain ⟨b, hb, rfl⟩ := hc
  rfl

/-- Witness for the amended C6 at a concrete input. -/
theorem testmode_flag_and_return_witness :
    (∀ c ∈ (lambda_handler_model (ComplianceResult.listRes [sampleEval]) none
        "111122223333" "2024-01-01T00:00:00Z" [] "TESTMODE").fst,
      c.testMode = true) ∧
    (lambda_handler_model (ComplianceResult.listRes [sampleEval]) none
        "111122223333" "2024-01-01T00:00:00Z" [] "TESTMODE").snd =
      (handler_dispatch (ComplianceResult.listRes [sampleEval]) none
        "111122223333" "2024-01-01T00:00:00Z" []).snd ∧
    submittedRecords (lambda_handler_model (ComplianceResult.listRes [sampleEval])
        none "111122223333" "2024-01-01T00:00:00Z" [] "TESTMODE").fst =
      (handler_dispatch (ComplianceResult.listRes [sampleEval]) none
        "111122223333" "2024-01-01T00:00:00Z" []).snd :=
  testmode_flag_and_return (ComplianceResult.listRes [sampleEval]) none
    "111122223333" "2024-01-01T00:00:00Z" []

/-- C7: In the list branch of the handler, every record missing one of the
four required fields is dropped — at least one warning is printed and the
record appears in no submission call — while every record with all four
fields present is still submitted; the processing is total, so a missing
field never aborts the invocation. -/
theorem missing_field_records_dropped (l : List Evaluation) (e : Evaluation)
    (ci : Option ConfigItem) (accountId ts : String)
    (old_pages : List (List OldEval)) (result_token : String) (he : e ∈ l) :
    (hasAllFields e = false →
      e ∉ submittedRecords (lambda_handler_model (ComplianceResult.listRes l) ci
        accountId ts old_pages result_token).fst ∧
      list_branch_warnings l ≠ []) ∧
    (hasAllFields e = true →
      e ∈ submittedRecords (lambda_handler_model (ComplianceResult.listRes l) ci
        accountId ts old_pages result_token).fst) := by
  have hlne : l ≠ [] := by
    rintro rfl
    exact (List.not_mem_nil e) he
  have hfalsy : is_falsy (ComplianceResult.listRes l) = false := by
    show l.isEmpty = false
    cases l with
    | nil => exact absurd rfl hlne
    | cons a t => rfl
  have hsnd : (handler_dispatch (ComplianceResult.listRes l) ci accountId ts
      old_pages).snd =
      clean_up_old_evaluations old_pages (l.filter hasAllFields) ts := by
    simp [handler_dispatch, hfalsy]
  have hsub : submittedRecords (lambda_handler_model (ComplianceResult.listRes l)
      ci accountId ts old_pages result_token).fst =
      clean_up_old_evaluations old_pages (l.filter hasAllFields) ts := by
    show submittedRecords (submit_evaluations _ result_token) = _
    rw [submittedRecords_submit, hsnd]
  constructor
  · intro hbad
    constructor
    · rw [hsub]
      intro hmem
      have hall : hasAllFields e = true := by
        refine mem_clean_up_hasAllFields old_pages (l.filter hasAllFields) ts e
          ?_ hmem
        intro x hx
        exact (List.mem_filter.mp hx).2
      rw [hbad] at hall
      exact Bool.false_ne_true hall
    · intro hw
      have hinner : (missing_fields_of e).map
          (fun f => "Missing " ++ f ++ " from custom evaluation.") = [] := by
        have := List.flatMap_eq_nil_iff.mp hw
        exact this e he
      have hmf : missing_fields_of e = [] := List.map_eq_nil_iff.mp hinner
      have : hasAllFields e = true := by
        simp [hasAllFields, hmf]
      rw [hbad] at this
      exact Bool.false_ne_true this
  · intro hgood
    rw [hsub, clean_up_old_evaluations_eq]
    exact List.mem_append.mpr (Or.inr (List.mem_filter.mpr ⟨he, hgood⟩))

/-- Witness for C7 at a concrete input containing one well-formed and one
malformed record. -/
theorem missing_field_records_dropped_witness :
    sampleBadEval ∈ [sampleEval, sampleBadEval] ∧
    ((hasAllFields sampleBadEval = false →
      sampleBadEval ∉ submittedRecords (lambda_handler_model
        (ComplianceResult.listRes [sampleEval, sampleBadEval]) none
        "111122223333" "2024-01-01T00:00:00Z" [] "token-1").fst ∧
      list_branch_warnings [sampleEval, sampleBadEval] ≠ []) ∧
    (hasAllFields sampleBadEval = true →
      sampleBadEval ∈ submittedRecords (lambda_handler_model
        (ComplianceResult.listRes [sampleEval, sampleBadEval]) none
        "111122223333" "2024-01-01T00:00:00Z" [] "token-1").fst)) :=
  ⟨by decide, missing_field_records_dropped [sampleEval, sampleBadEval]
    sampleBadEval none "111122223333" "2024-01-01T00:00:00Z" [] "token-1"
    (by decide)⟩

/-- C8: every flag the attribute extractor records for a scanned parameter
name equals (stored value is the sentinel "true") AND (the name is not
reported non-in-sync); in particular a recorded `true` requires the value
"true" together with an in-sync apply status, and a name reported
non-in-sync is always recorded `false`, even when its stored value is
"true". -/
theorem scanned_param_flag (groups : List ClusterParameterGroup)
    (parameters : List ClusterParameter) (name : String) (b : Bool)
    (h : dictLookup (get_parameters_for_cluster_parameter_group groups parameters)
      name = some b) :
    name ∈ params_to_scan ∧
    (∃ p ∈ parameters, p.parameterName = name ∧
      b = (p.parameterValue == "true" &&
        !((get_non_synced_params_list groups).contains name))) ∧
    (b = true → ∃ p ∈ parameters, p.parameterName = name ∧
      p.parameterValue = "true" ∧
      (get_non_synced_params_list groups).contains name = false) ∧
    ((get_non_synced_params_list groups).contains name = true → b = false) := by
  have hmem := dictLookup_some_mem _ _ _ h
  rw [get_parameters_for_cluster_parameter_group] at hmem
  rcases mem_params_foldl (get_non_synced_params_list groups) parameters []
      (name, b) hmem with h0 | ⟨p, hp, hsc, hkv⟩
  · exact absurd h0 (List.not_mem_nil _)
  rw [Prod.mk.injEq] at hkv
  obtain ⟨hn, hb⟩ := hkv
  subst hn
  have hb2 : b = (p.parameterValue == "true" &&
      !((get_non_synced_params_list groups).contains p.parameterName)) := by
    rw [hb]
    cases hcond : (p.parameterValue == "true" &&
        !((get_non_synced_params_list groups).contains p.parameterName)) <;>
      simp [hcond]
  refine ⟨?_, ⟨p, hp, rfl, hb2⟩, ?_, ?_⟩
  · simpa using hsc
  · intro hbt
    rw [hbt] at hb2
    have hand := (Bool.and_eq_true _ _).mp hb2.symm
    refine ⟨p, hp, rfl, eq_of_beq hand.1, ?_⟩
    have := hand.2
    cases hcc : (get_non_synced_params_list groups).contains p.parameterName
    · rfl
    · rw [hcc] at this; exact absurd this (by decide)
  · intro hcc
    rw [hb2, hcc]
    simp

/-- Witness for C8: a scanned parameter whose stored value is "true" but
whose apply status is not in-sync is recorded as disabled. -/
theorem scanned_param_flag_witness :
    dictLookup (get_parameters_for_cluster_parameter_group sampleGroups
      sampleParams) "require_ssl" = some false ∧
    ("require_ssl" ∈ params_to_scan ∧
      (∃ p ∈ sampleParams, p.parameterName = "require_ssl" ∧
        false = (p.parameterValue == "true" &&
          !((get_non_synced_params_list sampleGroups).contains "require_ssl"))) ∧
      (false = true → ∃ p ∈ sampleParams, p.parameterName = "require_ssl" ∧
        p.parameterValue = "true" ∧
        (get_non_synced_params_list sampleGroups).contains "require_ssl" =
          false) ∧
      ((get_non_synced_params_list sampleGroups).contains "require_ssl" = true →
        false = false)) :=
  ⟨by decide, scanned_param_flag sampleGroups sampleParams "require_ssl" false
    (by decide)⟩

/-- C9: when role assumption fails with a provider error whose code is
"AccessDenied", the returned error response carries customerErrorCode
"AccessDenied" and the fixed non-leaking customer message, never the raw
provider message. -/
theorem access_denied_fixed_message (raw : AwsError)
    (h : raw.code = "AccessDenied") :
    (assume_role_failure_response raw).customerErrorCode = some "AccessDenied" ∧
    (assume_role_failure_response raw).customerErrorMessage =
      some "AWS Config does not have permission to assume the IAM role." ∧
    (raw.message ≠ "AWS Config does not have permission to assume the IAM role." →
      (assume_role_failure_response raw).customerErrorMessage ≠
        some raw.message) := by
  cases raw with
  | mk c m =>
      have hcode : c = "AccessDenied" := h
      subst hcode
      refine ⟨rfl, rfl, ?_⟩
      intro hne heq
      have heq2 : some "AWS Config does not have permission to assume the IAM role."
          = some m := heq
      exact hne (Option.some.inj heq2).symm

/-- Witness for C9 at a concrete raw provider error. -/
theorem access_denied_fixed_message_witness :
    ({ code := "AccessDenied",
       message := "User is not authorized to perform sts:AssumeRole" } :
      AwsError).code = "AccessDenied" ∧
    (assume_role_failure_response
        { code := "AccessDenied",
          message := "User is not authorized to perform sts:AssumeRole" }).customerErrorCode =
      some "AccessDenied" ∧
    (assume_role_failure_response
        { code := "AccessDenied",
          message := "User is not authorized to perform sts:AssumeRole" }).customerErrorMessage =
      some "AWS Config does not have permission to assume the IAM role." :=
  ⟨rfl,
    (access_denied_fixed_message
      { code := "AccessDenied",
        message := "User is not authorized to perform sts:AssumeRole" } rfl).1,
    (access_denied_fixed_message
      { code := "AccessDenied",
        message := "User is not authorized to perform sts:AssumeRole" } rfl).2.1⟩

/-- C10: every record built by `build_evaluation` or
`build_evaluation_from_config_item` carries all four required fields;
consequently the missing-field filter drops no record produced by
`evaluate_compliance`. -/
theorem built_evaluations_have_all_fields (rid ct ts rt accountId : String)
    (a : Option String) (ci : ConfigItem) (cs : List ClusterRecord)
    (l : List Evaluation)
    (h : evaluate_compliance accountId ts cs = Except.ok l) :
    hasAllFields (build_evaluation rid ct ts rt a) = true ∧
    hasAllFields (build_evaluation_from_config_item ci ct a) = true ∧
    l.filter hasAllFields = l := by
  refine ⟨hasAllFields_build_evaluation rid ct ts rt a,
    hasAllFields_build_from_ci ci ct a, ?_⟩
  rw [evaluate_compliance_ok_form] at h
  have hl : l = (if cs.isEmpty then
      [build_evaluation accountId "NOT_APPLICABLE" ts "AWS::::Account"
        (some "No clusters found")]
    else []) ++ cs.map (spec_cluster_eval ts) := (Except.ok.inj h).symm
  rw [hl, List.filter_eq_self]
  intro e hemem
  rcases List.mem_append.mp hemem with h1 | h1
  · split at h1
    · have he : e = build_evaluation accountId "NOT_APPLICABLE" ts
          "AWS::::Account" (some "No clusters found") := by simpa using h1
      rw [he]
      exact hasAllFields_build_evaluation _ _ _ _ _
    · exact absurd h1 (List.not_mem_nil e)
  · obtain ⟨c, -, rfl⟩ := List.mem_map.mp h1
    exact hasAllFields_spec_cluster_eval ts c

/-- Witness for C10 at a concrete empty-cluster invocation. -/
theorem built_evaluations_have_all_fields_witness :
    evaluate_compliance "111122223333" "2024-01-01T00:00:00Z" [] =
      Except.ok [build_evaluation "111122223333" "NOT_APPLICABLE"
        "2024-01-01T00:00:00Z" "AWS::::Account" (some "No clusters found")] ∧
    (hasAllFields (build_evaluation "cluster-a" "COMPLIANT"
        "2024-01-01T00:00:00Z" DEFAULT_RESOURCE_TYPE none) = true ∧
     hasAllFields (build_evaluation_from_config_item
        { resourceType := "AWS::Redshift::Cluster", resourceId := "cluster-a",
          configurationItemCaptureTime := "2024-01-01T00:00:00Z" }
        "COMPLIANT" none) = true ∧
     [build_evaluation "111122223333" "NOT_APPLICABLE" "2024-01-01T00:00:00Z"
        "AWS::::Account" (some "No clusters found")].filter hasAllFields =
       [build_evaluation "111122223333" "NOT_APPLICABLE" "2024-01-01T00:00:00Z"
          "AWS::::Account" (some "No clusters found")]) :=
  ⟨rfl, built_evaluations_have_all_fields "cluster-a" "COMPLIANT"
    "2024-01-01T00:00:00Z" DEFAULT_RESOURCE_TYPE "111122223333" none
    { resourceType := "AWS::Redshift::Cluster", resourceId := "cluster-a",
      configurationItemCaptureTime := "2024-01-01T00:00:00Z" } [] _ rfl⟩
